import Mathlib

/-!
Shallow embedding of the AffiliateHub tracking backend (Django apps
`users`, `products`, `tracking`) and proofs about its behaviour.

Conventions of the embedding:
* Django model rows become Lean structures; the database becomes a `Store`
  holding lists of rows.  Decimal fields (`price`, `commission_rate`,
  `amount`, `commission_amount`) are embedded as `Rat` (the Decimal
  arithmetic used by the code - multiplication and division by 100 -
  is exact rational arithmetic).
* `URLField`/`CharField` values are `String`; Django's blank value is the
  empty string, which is also Python-falsy, matching `if link.landing_url:`.
* Timestamps are `Nat` instants; `timezone.now()` becomes an explicit
  `now` argument.
* A Python `try`/`except` block is embedded with `Except Exc`: the body
  returns `Except.error e` for a raised exception and the wrapper matches
  the `except` clauses in source order.
* `tracking/models.py` is not among the sources; where its behaviour is
  needed it is modelled from the specification and each such definition
  says so in its doc comment.
-/

/-- Python's substring operator `p in s` on lists of characters:
true iff `p` occurs contiguously in `s` (the empty string occurs in
everything). -/
def listSubstr (p : List Char) : List Char → Bool
  | [] => p.isEmpty
  | c :: t => p.isPrefixOf (c :: t) || listSubstr p t

/-- Python's substring operator `p in s` on strings. -/
def pyIn (p s : String) : Bool := listSubstr p.data s.data

/-- ASCII lowercasing of one character, as Python's `str.lower` does on
the ASCII range (the only range the user-agent patterns use). -/
def lowerChar (c : Char) : Char :=
  if 65 ≤ c.toNat ∧ c.toNat ≤ 90 then Char.ofNat (c.toNat + 32) else c

/-- Python's `s.lower()` as used by `detect_device_type`. -/
def pyLower (s : String) : String := String.mk (s.data.map lowerChar)

/-- The `mobile_patterns` list of `detect_device_type`
(src/tracking/views.py lines 37-40). -/
def mobile_patterns : List String :=
  ["mobile", "android", "iphone", "ipod", "blackberry",
   "windows phone", "palm", "symbian"]

/-- The `tablet_patterns` list of `detect_device_type`
(src/tracking/views.py line 43). -/
def tablet_patterns : List String :=
  ["ipad", "tablet", "kindle"]

/-- `detect_device_type` (src/tracking/views.py lines 29-53): empty (or
absent, delivered as empty) user agent gives "unknown"; otherwise the
lowercased agent is matched against the tablet patterns first, then the
mobile patterns, falling back to "desktop".  The source's for-loops
return on the first match; since every pattern of a loop returns the
same value this is `List.any`. -/
def detect_device_type (user_agent : String) : String :=
  if user_agent = "" then "unknown"
  else
    let ua := pyLower user_agent
    if tablet_patterns.any (fun p => pyIn p ua) then "tablet"
    else if mobile_patterns.any (fun p => pyIn p ua) then "mobile"
    else "desktop"

/-- C6: device classification is ordered, case-insensitive substring
matching with tablet patterns before mobile patterns: an agent whose
lowercasing contains "ipad" is classified tablet (hence never mobile);
an agent whose lowercasing contains "android" but no tablet pattern is
mobile; the empty (or absent) agent is unknown; a nonempty agent
matching no pattern is desktop. -/
theorem C6_detect_device_type (ua : String) :
    (pyIn ("ipad") (pyLower ua) = true → detect_device_type ua = "tablet") ∧
    (pyIn ("android") (pyLower ua) = true →
      tablet_patterns.all (fun p => !(pyIn p (pyLower ua))) = true →
      detect_device_type ua = "mobile") ∧
    (ua = "" → detect_device_type ua = "unknown") ∧
    (ua ≠ "" →
      tablet_patterns.all (fun p => !(pyIn p (pyLower ua))) = true →
      mobile_patterns.all (fun p => !(pyIn p (pyLower ua))) = true →
      detect_device_type ua = "desktop") := by
  refine ⟨?_, ?_, ?_, ?_⟩
  · intro hipad
    have hne : ua ≠ "" := by
      intro h
      rw [h] at hipad
      exact absurd hipad (by decide)
    have htab : tablet_patterns.any (fun p => pyIn p (pyLower ua)) = true := by
      simp only [tablet_patterns, List.any_cons, List.any_nil, Bool.or_eq_true]
      exact Or.inl hipad
    simp [detect_device_type, hne, htab]
  · intro hand htab
    have hne : ua ≠ "" := by
      intro h
      rw [h] at hand
      exact absurd hand (by decide)
    have htab' : tablet_patterns.any (fun p => pyIn p (pyLower ua)) = false := by
      simp only [List.all_eq_true, Bool.not_eq_true'] at htab
      simp only [List.any_eq_false]
      exact fun p hp => by simp [htab p hp]
    have hmob : mobile_patterns.any (fun p => pyIn p (pyLower ua)) = true := by
      simp only [mobile_patterns, List.any_cons, List.any_nil, Bool.or_eq_true]
      exact Or.inr (Or.inl hand)
    simp [detect_device_type, hne, htab', hmob]
  · intro h
    simp [detect_device_type, h]
  · intro hne htab hmob
    have htab' : tablet_patterns.any (fun p => pyIn p (pyLower ua)) = false := by
      simp only [List.all_eq_true, Bool.not_eq_true'] at htab
      simp only [List.any_eq_false]
      exact fun p hp => by simp [htab p hp]
    have hmob' : mobile_patterns.any (fun p => pyIn p (pyLower ua)) = false := by
      simp only [List.all_eq_true, Bool.not_eq_true'] at hmob
      simp only [List.any_eq_false]
      exact fun p hp => by simp [hmob p hp]
    simp [detect_device_type, hne, htab', hmob']

/-- Witness for C6 at concrete user agents: an iPad agent is tablet, an
Android phone agent is mobile, the empty agent is unknown, and a desktop
browser agent is desktop. -/
theorem C6_detect_device_type_witness :
    detect_device_type ("Mozilla/5.0 (iPad; CPU OS 13_0 like Mac OS X)") = "tablet" ∧
    detect_device_type ("Mozilla/5.0 (Linux; Android 10; Pixel 3)") = "mobile" ∧
    detect_device_type ("") = "unknown" ∧
    detect_device_type ("curl/7.68.0") = "desktop" :=
  ⟨(C6_detect_device_type ("Mozilla/5.0 (iPad; CPU OS 13_0 like Mac OS X)")).1
      (by decide),
   (C6_detect_device_type ("Mozilla/5.0 (Linux; Android 10; Pixel 3)")).2.1
      (by decide) (by decide),
   (C6_detect_device_type ("")).2.2.1 rfl,
   (C6_detect_device_type ("curl/7.68.0")).2.2.2
      (by decide) (by decide) (by decide)⟩

/-! ## Data model

Rows of the Django models.  `users/models.py` and `products/models.py`
are in the sources; the three tracking models are reconstructed from
their uses in src/tracking (serializers, views, admin) and, where noted,
from the specification. -/

/-- A row of the custom `User` model (src/users/models.py). Only the
fields the verified code paths read are embedded. -/
structure User where
  id : Nat
  username : String
  role : String
  is_superuser : Bool
deriving Repr, DecidableEq

/-- `User.is_affiliate` (src/users/models.py lines 57-60). -/
def User.is_affiliate (u : User) : Bool := u.role == "affiliate"

/-- `User.is_merchant` (src/users/models.py lines 62-65). -/
def User.is_merchant (u : User) : Bool := u.role == "merchant"

/-- A row of `Product` (src/products/models.py).  `external_url` is a
blankable URLField: the empty string stands for blank/null, which is
exactly Python falsiness as tested by `if link.product.external_url:`. -/
structure Product where
  id : Nat
  merchant : Nat
  price : Rat
  commission_rate : Rat
  external_url : String
  is_active : Bool
deriving Repr, DecidableEq

/-- A row of `AffiliateLink`.  The model file is absent from the
sources; the fields are those used by src/tracking/serializers.py,
src/tracking/views.py and src/tracking/admin.py: generated unique
`code` (a UUID, embedded as `Nat`), `affiliate` and `product` foreign
keys, `custom_slug`, `landing_url` (blank = empty string), `is_active`,
`expires_at`. -/
structure AffiliateLink where
  id : Nat
  code : Nat
  affiliate : Nat
  product : Nat
  custom_slug : String
  landing_url : String
  is_active : Bool
  expires_at : Option Nat
deriving Repr, DecidableEq

/-- A row of `Click`, with the fields `track_click` writes
(src/tracking/views.py lines 288-295). -/
structure Click where
  affiliate_link : Nat
  ip_address : String
  user_agent : String
  referrer : String
  device_type : String
deriving Repr, DecidableEq

/-- A row of `Conversion`, with the fields listed by
src/tracking/serializers.py lines 97-104 (plus `timestamp` as `Nat`). -/
structure Conversion where
  id : Nat
  affiliate_link : Nat
  click : Option Nat
  order_id : String
  amount : Rat
  commission_amount : Rat
  currency : String
  timestamp : Nat
  verified : Bool
  notes : String
deriving Repr, DecidableEq

/-- The database: one list of rows per model. -/
structure Store where
  products : List Product
  links : List AffiliateLink
  clicks : List Click
  conversions : List Conversion
deriving Repr, DecidableEq

/-- Point lookup of a product row by primary key (the ORM's access of a
`product` foreign key). -/
def findProduct (st : Store) (pid : Nat) : Option Product :=
  st.products.find? (fun p => p.id == pid)

/-- `get_object_or_404(AffiliateLink, code=code, is_active=True)`: the
first stored link with the given code that is active. -/
def findActiveLink (st : Store) (code : Nat) : Option AffiliateLink :=
  st.links.find? (fun l => l.code == code && l.is_active)

/-! ## The public click endpoint `track_click`
(src/tracking/views.py lines 271-311). -/

/-- The exceptions that can be raised inside the `try` block of
`track_click` / `record_conversion`:
* `http404` — raised by `get_object_or_404` when no row matches
  (Django's `Http404`, a subclass of `Exception` but NOT of
  `AffiliateLink.DoesNotExist`);
* `doesNotExist` — `AffiliateLink.DoesNotExist` itself, the type the
  first `except` clause names (never actually raised on these paths,
  because `get_object_or_404` converts it to `Http404`);
* `dbError` — a storage failure while persisting a row;
* `relatedDoesNotExist` — a missing foreign-key target on attribute
  access (e.g. `link.product` with no product row). -/
inductive Exc
  | http404
  | doesNotExist
  | dbError
  | relatedDoesNotExist
deriving Repr, DecidableEq

/-- The message `str(e)` carried by each exception, as interpolated
into the 500 body. -/
def excMessage : Exc → String
  | Exc.http404 => "No AffiliateLink matches the given query."
  | Exc.doesNotExist => "AffiliateLink matching query does not exist."
  | Exc.dbError => "database error"
  | Exc.relatedDoesNotExist => "Product matching query does not exist."

/-- An HTTP response of the click endpoint: a 302 redirect
(`django.shortcuts.redirect`) or a plain `HttpResponse` with an error
status and body. -/
inductive ClickResponse
  | redirect (url : String)
  | httpError (status : Nat) (body : String)
deriving Repr, DecidableEq

/-- The HTTP status of a `ClickResponse`. -/
def ClickResponse.status : ClickResponse → Nat
  | ClickResponse.redirect _ => 302
  | ClickResponse.httpError s _ => s

/-- Per-request data of a click: `timezone.now()`, the visitor headers
(IP already extracted by `get_client_ip`), and whether the storage
layer fails the `Click.objects.create` insert. -/
structure ClickEnv where
  now : Nat
  ip_address : String
  user_agent : String
  referrer : String
  clickSaveFails : Bool
deriving Repr, DecidableEq

/-- `link.expires_at and timezone.now() > link.expires_at`
(src/tracking/views.py line 279). -/
def linkExpired (link : AffiliateLink) (now : Nat) : Bool :=
  match link.expires_at with
  | none => false
  | some t => now > t

/-- The Click row built by `Click.objects.create`
(src/tracking/views.py lines 288-295). -/
def mkClick (link : AffiliateLink) (env : ClickEnv) : Click :=
  { affiliate_link := link.id
    ip_address := env.ip_address
    user_agent := env.user_agent
    referrer := env.referrer
    device_type := detect_device_type env.user_agent }

/-- The redirect-target computation of `track_click`
(src/tracking/views.py lines 297-304): `link.landing_url` if truthy,
else `link.product.external_url` if truthy, else the internal product
detail page. -/
def redirect_target (link : AffiliateLink) (product : Product) : String :=
  if link.landing_url ≠ "" then link.landing_url
  else if product.external_url ≠ "" then product.external_url
  else "/api/products/" ++ toString product.id ++ "/"

/-- The `try` block of `track_click` (src/tracking/views.py lines
275-306): resolve the active link (`Http404` if none), return 410 if
expired, persist the Click (a storage failure raises), then redirect
with target precedence.  Returns the updated store with the response,
or the raised exception. -/
def track_click_body (st : Store) (env : ClickEnv) (code : Nat) :
    Except Exc (Store × ClickResponse) :=
  match findActiveLink st code with
  | none => Except.error Exc.http404
  | some link =>
    if linkExpired link env.now then
      Except.ok (st, ClickResponse.httpError 410 ("This affiliate link has expired."))
    else if env.clickSaveFails then
      Except.error Exc.dbError
    else
      let st1 := { st with clicks := st.clicks ++ [mkClick link env] }
      match findProduct st link.product with
      | none => Except.error Exc.relatedDoesNotExist
      | some product =>
        Except.ok (st1, ClickResponse.redirect (redirect_target link product))

/-- `track_click` with its `except` clauses (src/tracking/views.py
lines 308-311): `AffiliateLink.DoesNotExist` is answered with 404
"Invalid affiliate link.", any other exception with 500.  A raised
exception leaves the store unchanged. -/
def track_click (st : Store) (env : ClickEnv) (code : Nat) :
    Store × ClickResponse :=
  match track_click_body st env code with
  | Except.ok r => r
  | Except.error Exc.doesNotExist =>
    (st, ClickResponse.httpError 404 ("Invalid affiliate link."))
  | Except.error e =>
    (st, ClickResponse.httpError 500 ("Error processing click: " ++ excMessage e))

/-! ### Concrete sample rows used by witnesses and counterexamples. -/

/-- An empty database. -/
def emptyStore : Store :=
  { products := [], links := [], clicks := [], conversions := [] }

/-- A sample click request environment (healthy storage). -/
def sampleEnv : ClickEnv :=
  { now := 100, ip_address := "203.0.113.9",
    user_agent := "Mozilla/5.0 (iPad)", referrer := "",
    clickSaveFails := false }

/-- A sample active product: price 50, commission rate 10 percent. -/
def sampleProduct : Product :=
  { id := 1, merchant := 2, price := 50, commission_rate := 10,
    external_url := "", is_active := true }

/-- A sample active, non-expiring link for `sampleProduct` with code 7. -/
def sampleLink : AffiliateLink :=
  { id := 5, code := 7, affiliate := 3, product := 1, custom_slug := "",
    landing_url := "", is_active := true, expires_at := none }

/-- A store holding `sampleProduct` and `sampleLink`. -/
def sampleStore : Store :=
  { products := [sampleProduct], links := [sampleLink],
    clicks := [], conversions := [] }

/-- When no active link matches the code, the `Http404` raised by
`get_object_or_404` falls through to the generic `except Exception`
clause and the endpoint answers 500 with the store untouched. -/
theorem track_click_of_no_active_link (st : Store) (env : ClickEnv)
    (code : Nat) (h : findActiveLink st code = none) :
    track_click st env code =
      (st, ClickResponse.httpError 500
        ("Error processing click: No AffiliateLink matches the given query.")) := by
  have hb : track_click_body st env code = Except.error Exc.http404 := by
    simp [track_click_body, h]
  simp [track_click, hb, excMessage]

/-- C3: for a code matching no stored active link, `get_object_or_404`
raises `Http404`, which the first `except` clause
(`AffiliateLink.DoesNotExist`) does not match, so the generic
`except Exception` clause answers: the endpoint returns a 500 response,
not the 404 the claim requires.  (The 404 branch is dead code.) -/
theorem C3_unknown_code_500 (st : Store) (env : ClickEnv) (code : Nat)
    (h : findActiveLink st code = none) :
    track_click st env code =
      (st, ClickResponse.httpError 500
        ("Error processing click: No AffiliateLink matches the given query.")) ∧
    (track_click st env code).2.status = 500 := by
  have he := track_click_of_no_active_link st env code h
  exact ⟨he, by rw [he]; rfl⟩

/-- Witness for C3: resolving code 42 against the empty store yields
the 500 response. -/
theorem C3_unknown_code_500_witness :
    track_click emptyStore sampleEnv 42 =
      (emptyStore, ClickResponse.httpError 500
        ("Error processing click: No AffiliateLink matches the given query.")) ∧
    (track_click emptyStore sampleEnv 42).2.status = 500 :=
  C3_unknown_code_500 emptyStore sampleEnv 42 (by decide)

/-- A click request whose `Click.objects.create` insert fails. -/
def failingEnv : ClickEnv := { sampleEnv with clickSaveFails := true }

/-- Counterexample to C4: on `sampleStore`, a click on code 7 whose
Click insert fails is answered with a 500 error, not with the redirect
(302) the claim requires — the storage failure is not swallowed. -/
theorem C4_counterexample :
    (track_click sampleStore failingEnv 7).2 =
      ClickResponse.httpError 500 ("Error processing click: database error") ∧
    (track_click sampleStore failingEnv 7).2.status = 500 ∧
    (track_click sampleStore failingEnv 7).2.status ≠ 302 := by
  decide

/-- C4 (amended): if persisting the Click record fails, the exception
propagates to the generic `except Exception` clause: the endpoint
returns a 500 error and never the redirect; the store is unchanged (no
Click row).  The redirect is only returned when the insert succeeds. -/
theorem C4_click_save_failure (st : Store) (env : ClickEnv) (code : Nat)
    (link : AffiliateLink)
    (hfind : findActiveLink st code = some link)
    (hexp : linkExpired link env.now = false)
    (hfail : env.clickSaveFails = true) :
    track_click st env code =
      (st, ClickResponse.httpError 500 ("Error processing click: database error")) ∧
    (track_click st env code).2.status ≠ 302 := by
  have hb : track_click_body st env code = Except.error Exc.dbError := by
    simp [track_click_body, hfind, hexp, hfail]
  have he : track_click st env code =
      (st, ClickResponse.httpError 500 ("Error processing click: database error")) := by
    simp [track_click, hb, excMessage]
  exact ⟨he, by rw [he]; simp [ClickResponse.status]⟩

/-- Witness for C4 (amended) at the concrete sample store. -/
theorem C4_click_save_failure_witness :
    track_click sampleStore failingEnv 7 =
      (sampleStore,
        ClickResponse.httpError 500 ("Error processing click: database error")) :=
  (C4_click_save_failure sampleStore failingEnv 7 sampleLink
    (by decide) (by decide) (by decide)).1

/-- `sampleLink` made inactive. -/
def inactiveLink : AffiliateLink := { sampleLink with is_active := false }

/-- A store whose only link (code 7) is inactive. -/
def inactiveLinkStore : Store := { sampleStore with links := [inactiveLink] }

/-- Counterexample to C5: a link with code 7 exists but is inactive;
the claim requires the click endpoint to answer 410, but the
active-only lookup raises `Http404`, which the generic handler turns
into a 500 — and no Click is recorded. -/
theorem C5_counterexample :
    inactiveLink ∈ inactiveLinkStore.links ∧
    inactiveLink.is_active = false ∧
    (track_click inactiveLinkStore sampleEnv 7).2.status = 500 ∧
    (track_click inactiveLinkStore sampleEnv 7).2.status ≠ 410 := by
  decide

/-- C5 (amended): a click on an active link whose `expires_at` is set
and in the past is answered 410 ("This affiliate link has expired."),
distinct from not-found, with the store unchanged (no Click recorded);
a link that exists but is inactive never reaches the 410 branch — the
active-only lookup raises `Http404` and the generic handler answers
500. -/
theorem C5_expired_click_410 (st : Store) (env : ClickEnv) (code : Nat)
    (link : AffiliateLink) :
    (findActiveLink st code = some link → linkExpired link env.now = true →
      track_click st env code =
        (st, ClickResponse.httpError 410 ("This affiliate link has expired."))) ∧
    ((∀ l ∈ st.links, l.code = code → l.is_active = false) →
      (track_click st env code).2.status = 500 ∧
      (track_click st env code).2.status ≠ 410) := by
  constructor
  · intro hfind hexp
    have hb : track_click_body st env code =
        Except.ok (st, ClickResponse.httpError 410 ("This affiliate link has expired.")) := by
      simp [track_click_body, hfind, hexp]
    simp [track_click, hb]
  · intro hall
    have hnone : findActiveLink st code = none := by
      rw [findActiveLink, List.find?_eq_none]
      intro l hl
      simp only [Bool.and_eq_true, beq_iff_eq, not_and]
      intro hcode
      simp [hall l hl hcode]
    have he := track_click_of_no_active_link st env code hnone
    rw [he]
    exact ⟨rfl, by simp [ClickResponse.status]⟩

/-- `sampleLink` with an expiry timestamp already in the past of
`sampleEnv.now = 100`. -/
def expiredLink : AffiliateLink := { sampleLink with expires_at := some 50 }

/-- A store whose only link (code 7) is active but expired. -/
def expiredLinkStore : Store := { sampleStore with links := [expiredLink] }

/-- Witness for C5 (amended): the expired active link gets 410 with no
Click recorded, and the inactive-link store gets 500, not 410. -/
theorem C5_expired_click_410_witness :
    (track_click expiredLinkStore sampleEnv 7 =
      (expiredLinkStore,
        ClickResponse.httpError 410 ("This affiliate link has expired."))) ∧
    ((track_click inactiveLinkStore sampleEnv 7).2.status = 500 ∧
      (track_click inactiveLinkStore sampleEnv 7).2.status ≠ 410) :=
  ⟨(C5_expired_click_410 expiredLinkStore sampleEnv 7 expiredLink).1
      (by decide) (by decide),
   (C5_expired_click_410 inactiveLinkStore sampleEnv 7 inactiveLink).2
      (by decide)⟩

/-- C7: on the success path (active link found, not expired, Click
persisted) the endpoint appends exactly the built Click row and
redirects, and the redirect target obeys the strict precedence
`link.landing_url` over `product.external_url` over the internal
product detail page. -/
theorem C7_redirect_precedence (st : Store) (env : ClickEnv) (code : Nat)
    (link : AffiliateLink) (product : Product)
    (hfind : findActiveLink st code = some link)
    (hexp : linkExpired link env.now = false)
    (hok : env.clickSaveFails = false)
    (hprod : findProduct st link.product = some product) :
    track_click st env code =
      ({ st with clicks := st.clicks ++ [mkClick link env] },
        ClickResponse.redirect (redirect_target link product)) ∧
    (link.landing_url ≠ "" → redirect_target link product = link.landing_url) ∧
    (link.landing_url = "" → product.external_url ≠ "" →
      redirect_target link product = product.external_url) ∧
    (link.landing_url = "" → product.external_url = "" →
      redirect_target link product = "/api/products/" ++ toString product.id ++ "/") := by
  refine ⟨?_, ?_, ?_, ?_⟩
  · have hb : track_click_body st env code =
        Except.ok ({ st with clicks := st.clicks ++ [mkClick link env] },
          ClickResponse.redirect (redirect_target link product)) := by
      simp [track_click_body, hfind, hexp, hok, hprod]
    simp [track_click, hb]
  · intro h
    simp [redirect_target, h]
  · intro h1 h2
    simp [redirect_target, h1, h2]
  · intro h1 h2
    simp [redirect_target, h1, h2]

/-- `sampleLink` (as a second row, code 8) with a landing URL set. -/
def landingLink : AffiliateLink :=
  { sampleLink with
    id := 6
    code := 8
    landing_url := "https://aff.example/landing" }

/-- A store holding both `sampleLink` (code 7, no landing URL) and
`landingLink` (code 8, landing URL set). -/
def landingStore : Store := { sampleStore with links := [sampleLink, landingLink] }

/-- Witness for C7: code 7 (no landing URL, no external URL) redirects
to the internal product page; code 8 redirects to its landing URL. -/
theorem C7_redirect_precedence_witness :
    track_click landingStore sampleEnv 7 =
      ({ landingStore with clicks := [mkClick sampleLink sampleEnv] },
        ClickResponse.redirect (redirect_target sampleLink sampleProduct)) ∧
    redirect_target sampleLink sampleProduct = "/api/products/1/" ∧
    redirect_target landingLink sampleProduct = "https://aff.example/landing" :=
  ⟨(C7_redirect_precedence landingStore sampleEnv 7 sampleLink sampleProduct
      (by decide) (by decide) rfl (by decide)).1,
   (C7_redirect_precedence landingStore sampleEnv 7 sampleLink sampleProduct
      (by decide) (by decide) rfl (by decide)).2.2.2 rfl rfl,
   (C7_redirect_precedence landingStore sampleEnv 8 landingLink sampleProduct
      (by decide) (by decide) rfl (by decide)).2.1 (by decide)⟩

/-! ## The conversion endpoint `record_conversion`
(src/tracking/views.py lines 314-359) and the commission snapshot. -/

/-- The field list of `ConversionCreateSerializer`
(src/tracking/serializers.py lines 110-115): the creation payload.
`commission_amount` is absent — a client cannot supply it. -/
def conversionCreateSerializerFields : List String :=
  ["affiliate_link", "click", "order_id", "amount", "currency", "notes"]

/-- The `read_only_fields` of `ConversionSerializer`
(src/tracking/serializers.py line 104). -/
def conversionSerializerReadOnlyFields : List String :=
  ["id", "timestamp", "commission_amount"]

/-- Modelled from the spec: `tracking/models.py` is absent from the
sources, so the `Conversion` row construction performed by
`Conversion.objects.create` (its `save`) follows spec §3/§4.2:
`commission_amount` is derived at creation as
`amount × link.product.commission_rate / 100` and snapshotted (never
recomputed); `verified` defaults to false; the view passes no `click`,
and the currency keeps the model's default. -/
def mkConversion (link : AffiliateLink) (product : Product) (amount : Rat)
    (order_id notes : String) (newId now : Nat) : Conversion :=
  { id := newId
    affiliate_link := link.id
    click := none
    order_id := order_id
    amount := amount
    commission_amount := amount * product.commission_rate / 100
    currency := "USD"
    timestamp := now
    verified := false
    notes := notes }

/-- A response of `record_conversion`: 201 with the serialized created
conversion, or a JSON error body with a status. -/
inductive ConvertResponse
  | created (conversion : Conversion)
  | jsonError (status : Nat) (error : String)
deriving Repr, DecidableEq

/-- The `try` block of `record_conversion` (src/tracking/views.py lines
318-348): resolve the active link (`Http404` if none), 403 unless the
requester is the product's merchant or a superuser, 400 unless the
amount is positive (Python: `not amount or float(amount) <= 0`, which
over the positives is `amount ≤ 0`), else create the Conversion and
answer 201. -/
def record_conversion_body (st : Store) (user : User) (now : Nat)
    (code : Nat) (amount : Rat) (order_id notes : String) (newId : Nat) :
    Except Exc (Store × ConvertResponse) :=
  match findActiveLink st code with
  | none => Except.error Exc.http404
  | some link =>
    match findProduct st link.product with
    | none => Except.error Exc.relatedDoesNotExist
    | some product =>
      if user.id != product.merchant && !user.is_superuser then
        Except.ok (st, ConvertResponse.jsonError 403
          ("Only the product merchant can record conversions"))
      else if amount ≤ 0 then
        Except.ok (st, ConvertResponse.jsonError 400 ("Valid amount is required"))
      else
        let conv := mkConversion link product amount order_id notes newId now
        Except.ok ({ st with conversions := st.conversions ++ [conv] },
          ConvertResponse.created conv)

/-- `record_conversion` with its `except` clauses (src/tracking/views.py
lines 350-359). -/
def record_conversion (st : Store) (user : User) (now : Nat) (code : Nat)
    (amount : Rat) (order_id notes : String) (newId : Nat) :
    Store × ConvertResponse :=
  match record_conversion_body st user now code amount order_id notes newId with
  | Except.ok r => r
  | Except.error Exc.doesNotExist =>
    (st, ConvertResponse.jsonError 404 ("Invalid affiliate link"))
  | Except.error e =>
    (st, ConvertResponse.jsonError 500 ("Error recording conversion: " ++ excMessage e))

/-- A later edit of a product's `commission_rate` through the product
update endpoint (`ProductUpdateSerializer` lists `commission_rate`,
src/products/serializers.py lines 109-114): rewrites the product row,
touches no conversion row. -/
def set_commission_rate (st : Store) (pid : Nat) (r : Rat) : Store :=
  { st with
    products := st.products.map (fun p =>
      if p.id == pid then { p with commission_rate := r } else p) }

/-- C1: a successfully recorded conversion snapshots
`commission_amount = amount × commission_rate / 100` with the product's
rate at creation time; editing any product's rate afterwards never
rewrites a stored conversion, so the snapshot survives; and the
creation payload cannot carry `commission_amount` (it is absent from
the create serializer's fields and read-only on the model
serializer). -/
theorem C1_commission_snapshot (st : Store) (user : User) (now code : Nat)
    (amount : Rat) (order_id notes : String) (newId : Nat)
    (link : AffiliateLink) (product : Product)
    (hfind : findActiveLink st code = some link)
    (hprod : findProduct st link.product = some product)
    (hmerch : user.id = product.merchant)
    (hamt : 0 < amount) :
    (record_conversion st user now code amount order_id notes newId =
      ({ st with conversions :=
          st.conversions ++ [mkConversion link product amount order_id notes newId now] },
        ConvertResponse.created
          (mkConversion link product amount order_id notes newId now))) ∧
    (mkConversion link product amount order_id notes newId now).commission_amount
      = amount * product.commission_rate / 100 ∧
    (∀ st2 : Store, ∀ pid : Nat, ∀ r : Rat,
      (set_commission_rate st2 pid r).conversions = st2.conversions) ∧
    "commission_amount" ∉ conversionCreateSerializerFields ∧
    "commission_amount" ∈ conversionSerializerReadOnlyFields := by
  refine ⟨?_, rfl, ?_, by decide, by decide⟩
  · have hm : (user.id != product.merchant) = false := by
      simp [hmerch]
    have ha : ¬amount ≤ 0 := not_le.mpr hamt
    have hb : record_conversion_body st user now code amount order_id notes newId =
        Except.ok ({ st with conversions :=
            st.conversions ++ [mkConversion link product amount order_id notes newId now] },
          ConvertResponse.created
            (mkConversion link product amount order_id notes newId now)) := by
      simp [record_conversion_body, hfind, hprod, hm, ha]
    simp [record_conversion, hb]
  · intro st2 pid r
    simp [set_commission_rate]

/-- The merchant owning `sampleProduct`. -/
def sampleMerchant : User :=
  { id := 2, username := "merchant1", role := "merchant", is_superuser := false }

/-- Witness for C1: the sample merchant records a conversion of amount
50 on code 7 (rate 10): the stored conversion carries
`commission_amount = 5`, and editing the product's rate to 25
afterwards leaves the stored conversions untouched. -/
theorem C1_commission_snapshot_witness :
    (record_conversion sampleStore sampleMerchant 200 7 50 ("ord-1") ("") 9 =
      ({ sampleStore with conversions :=
          [mkConversion sampleLink sampleProduct 50 ("ord-1") ("") 9 200] },
        ConvertResponse.created
          (mkConversion sampleLink sampleProduct 50 ("ord-1") ("") 9 200))) ∧
    (mkConversion sampleLink sampleProduct 50 ("ord-1") ("") 9 200).commission_amount
      = (5 : Rat) ∧
    (set_commission_rate
        (record_conversion sampleStore sampleMerchant 200 7 50 ("ord-1") ("") 9).1
        1 25).conversions =
      (record_conversion sampleStore sampleMerchant 200 7 50 ("ord-1") ("") 9).1.conversions := by
  have h := C1_commission_snapshot sampleStore sampleMerchant 200 7 50 ("ord-1") ("") 9
    sampleLink sampleProduct (by decide) (by decide) (by decide) (by decide)
  refine ⟨h.1, ?_, h.2.2.1 _ 1 25⟩
  rw [h.2.1]
  simp only [sampleProduct]
  norm_num

/-! ## Affiliate link creation
(`AffiliateLinkCreateSerializer`, src/tracking/serializers.py lines
32-61, and `AffiliateLinkViewSet.perform_create`,
src/tracking/views.py lines 98-102). -/

/-- The rejections of the link-creation flow, in the order the code
raises them: the serializer's field validation (product must resolve),
`validate_product` ("Cannot create links for inactive products."),
`validate` ("You already have an affiliate link for this product." —
the uniqueness-violation rejection, the spec taxonomy's ConflictError,
surfaced by DRF as a validation error), then `perform_create`'s
`PermissionDenied` for non-affiliates. -/
inductive LinkCreateError
  | productNotFound
  | inactiveProduct
  | duplicateLink
  | permissionDenied
deriving Repr, DecidableEq

/-- `AffiliateLink.objects.filter(affiliate=affiliate, product=product).exists()`
(src/tracking/serializers.py line 51). -/
def duplicateLinkExists (st : Store) (affiliateId productId : Nat) : Bool :=
  st.links.any (fun l => l.affiliate == affiliateId && l.product == productId)

/-- The link-creation flow in DRF's order: field validation, then
`validate_product`, then `validate` (duplicate check against the
requesting user from the serializer context), then `perform_create`
(only affiliates may create; the requester becomes the affiliate).
`newId` and `newCode` stand for the database-assigned id and the
server-generated unique code; modelled from the spec for the absent
model file, the new row is persisted active. -/
def affiliate_link_create_result (st : Store) (user : User) (productId : Nat)
    (custom_slug landing_url : String) (expires_at : Option Nat)
    (newId newCode : Nat) :
    Except LinkCreateError (Store × AffiliateLink) :=
  match findProduct st productId with
  | none => Except.error LinkCreateError.productNotFound
  | some product =>
    if !product.is_active then
      Except.error LinkCreateError.inactiveProduct
    else if duplicateLinkExists st user.id productId then
      Except.error LinkCreateError.duplicateLink
    else if !user.is_affiliate then
      Except.error LinkCreateError.permissionDenied
    else
      let link : AffiliateLink :=
        { id := newId
          code := newCode
          affiliate := user.id
          product := productId
          custom_slug := custom_slug
          landing_url := landing_url
          is_active := true
          expires_at := expires_at }
      Except.ok ({ st with links := st.links ++ [link] }, link)

/-- The creation endpoint as the client sees it: on a rejection the
store is unchanged and the error is reported. -/
def affiliate_link_create (st : Store) (user : User) (productId : Nat)
    (custom_slug landing_url : String) (expires_at : Option Nat)
    (newId newCode : Nat) : Store × Option LinkCreateError :=
  match affiliate_link_create_result st user productId custom_slug landing_url
      expires_at newId newCode with
  | Except.ok (st1, _) => (st1, none)
  | Except.error e => (st, some e)

/-- The invariant of C2: no two stored link rows share their
(affiliate, product) pair. -/
def linksAtMostOnePerPair (st : Store) : Prop :=
  st.links.Pairwise (fun l1 l2 => ¬(l1.affiliate = l2.affiliate ∧ l1.product = l2.product))

instance : DecidablePred linksAtMostOnePerPair := fun st => by
  unfold linksAtMostOnePerPair
  infer_instance

/-- C2: if some stored link already has the requester's (affiliate,
product) pair, the creation attempt is rejected with the duplicate-link
error (the spec's ConflictError) and the store is unchanged; and every
creation attempt, accepted or rejected, preserves the at-most-one-link-
per-pair invariant. -/
theorem C2_at_most_one_link (st : Store) (user : User) (productId : Nat)
    (custom_slug landing_url : String) (expires_at : Option Nat)
    (newId newCode : Nat) :
    ((∃ l ∈ st.links, l.affiliate = user.id ∧ l.product = productId) →
      ∀ product, findProduct st productId = some product →
        product.is_active = true →
        affiliate_link_create st user productId custom_slug landing_url
            expires_at newId newCode =
          (st, some LinkCreateError.duplicateLink)) ∧
    (linksAtMostOnePerPair st →
      linksAtMostOnePerPair
        (affiliate_link_create st user productId custom_slug landing_url
            expires_at newId newCode).1) := by
  constructor
  · rintro ⟨l, hl, ha, hp⟩ product hfp hact
    have hdup : duplicateLinkExists st user.id productId = true := by
      rw [duplicateLinkExists, List.any_eq_true]
      exact ⟨l, hl, by simp [ha, hp]⟩
    simp [affiliate_link_create, affiliate_link_create_result, hfp, hact, hdup]
  · intro hinv
    unfold affiliate_link_create affiliate_link_create_result
    cases hfp : findProduct st productId with
    | none => exact hinv
    | some product =>
      by_cases hact : product.is_active
      · simp only [hact, Bool.not_true, Bool.false_eq_true, if_false]
        cases hdup : duplicateLinkExists st user.id productId with
        | true => simpa using hinv
        | false =>
          by_cases haff : user.is_affiliate
          · simp only [haff, Bool.not_true, Bool.false_eq_true, if_false]
            rw [duplicateLinkExists, List.any_eq_false] at hdup
            unfold linksAtMostOnePerPair at hinv ⊢
            simp only [List.pairwise_append, List.pairwise_singleton]
            refine ⟨hinv, trivial, ?_⟩
            intro a ha b hb
            simp only [List.mem_singleton] at hb
            subst hb
            have := hdup a ha
            simp only [Bool.and_eq_true, beq_iff_eq, not_and] at this
            rintro ⟨h1, h2⟩
            exact this (by simpa using h1) (by simpa using h2)
          · simp only [haff, Bool.not_false, if_true]
            exact hinv
      · have : product.is_active = false := by simpa using hact
        simp only [this, Bool.not_false, if_true]
        exact hinv

/-- The affiliate owning `sampleLink`. -/
def sampleAffiliate : User :=
  { id := 3, username := "affiliate1", role := "affiliate", is_superuser := false }

/-- Witness for C2: `sampleStore` already holds `sampleLink`
(affiliate 3, product 1); a second attempt by affiliate 3 for product 1
is rejected with the duplicate-link error, the store is unchanged, and
the invariant is preserved. -/
theorem C2_at_most_one_link_witness :
    affiliate_link_create sampleStore sampleAffiliate 1 ("") ("") none 11 12 =
      (sampleStore, some LinkCreateError.duplicateLink) ∧
    linksAtMostOnePerPair
      (affiliate_link_create sampleStore sampleAffiliate 1 ("") ("") none 11 12).1 :=
  ⟨(C2_at_most_one_link sampleStore sampleAffiliate 1 ("") ("") none 11 12).1
      ⟨sampleLink, by decide, by decide, by decide⟩ sampleProduct (by decide) (by decide),
   (C2_at_most_one_link sampleStore sampleAffiliate 1 ("") ("") none 11 12).2
      (by decide)⟩

/-! ## Product statistics (`ProductViewSet.stats`,
src/products/views.py lines 236-266). -/

/-- `Sum('price')` over the queryset — the value the `stats` endpoint
serves as `average_price` (src/products/views.py line 253), a plain sum
never divided by the count. -/
def stats_sum_price (ps : List Product) : Rat :=
  (ps.map (fun p => p.price)).sum

/-- `Sum('commission_rate')` over the queryset
(src/products/views.py lines 254-256). -/
def stats_sum_commission_rate (ps : List Product) : Rat :=
  (ps.map (fun p => p.commission_rate)).sum

/-- The `average_commission_rate` of `ProductViewSet.stats`
(src/products/views.py lines 254-261): `Sum('commission_rate')` (the
`or 0` covers the NULL aggregate of an empty queryset), then divided by
`total_products` when that is positive. -/
def stats_average_commission_rate (ps : List Product) : Rat :=
  let s := stats_sum_commission_rate ps
  if 0 < ps.length then s / (ps.length : Rat) else s

/-- The aggregate as claim C8 describes it (for comparison with the
source's computation): the summed price divided by the product count. -/
def claimed_average_commission_rate (ps : List Product) : Rat :=
  if 0 < ps.length then stats_sum_price ps / (ps.length : Rat)
  else stats_sum_price ps

/-- Counterexample to C8: on the one-product queryset `[sampleProduct]`
(price 50, commission rate 10) the source's aggregate yields 10 — the
mean of `commission_rate` — while the claimed summed-price-by-count
computation would yield 50. -/
theorem C8_counterexample :
    stats_average_commission_rate [sampleProduct] = 10 ∧
    claimed_average_commission_rate [sampleProduct] = 50 ∧
    stats_average_commission_rate [sampleProduct] ≠
      claimed_average_commission_rate [sampleProduct] := by
  refine ⟨?_, ?_, ?_⟩ <;>
    simp [stats_average_commission_rate, claimed_average_commission_rate,
      stats_sum_commission_rate, stats_sum_price, sampleProduct]

/-- C8 (amended): the `average_commission_rate` aggregate divides the
summed `commission_rate` by the product count — the explicit mean of
`commission_rate` — and is independent of prices (so it does not reuse
the price-summing path; the neighbouring `average_price` value, by
contrast, is the raw `Sum('price')` never divided by the count). -/
theorem C8_average_commission_rate (ps : List Product) (h : 0 < ps.length) :
    stats_average_commission_rate ps =
      stats_sum_commission_rate ps / (ps.length : Rat) ∧
    (∀ f : Product → Rat,
      stats_average_commission_rate (ps.map (fun p => { p with price := f p })) =
        stats_average_commission_rate ps) := by
  constructor
  · simp [stats_average_commission_rate, h]
  · intro f
    have hsum : stats_sum_commission_rate (ps.map (fun p => { p with price := f p })) =
        stats_sum_commission_rate ps := by
      unfold stats_sum_commission_rate
      rw [List.map_map]
      rfl
    simp [stats_average_commission_rate, hsum]

/-- Witness for C8 (amended) on the one-product queryset, with the
price rewritten to 999: the aggregate is unchanged. -/
theorem C8_average_commission_rate_witness :
    stats_average_commission_rate [sampleProduct] =
      stats_sum_commission_rate [sampleProduct] / (([sampleProduct].length : Nat) : Rat) ∧
    stats_average_commission_rate
        ([sampleProduct].map (fun p => { p with price := 999 })) =
      stats_average_commission_rate [sampleProduct] :=
  ⟨(C8_average_commission_rate [sampleProduct] (by decide)).1,
   (C8_average_commission_rate [sampleProduct] (by decide)).2 (fun _ => 999)⟩

/-! ## Product analytics (`ProductViewSet.analytics`,
src/products/views.py lines 197-234). -/

/-- The attribute names of a `Conversion` instance.  Modelled from the
spec: `tracking/models.py` is absent from the sources; per spec §3 and
the serializer/admin field lists the model carries exactly the columns
of `Conversion` (with `commission_rate` as a derived read-only
property).  No attribute named `commission` exists anywhere in the
repository's models. -/
def conversionAttributeNames : List String :=
  ["id", "affiliate_link", "click", "order_id", "amount",
   "commission_amount", "commission_rate", "currency", "timestamp",
   "verified", "notes"]

/-- Python's `hasattr(conversion, 'commission')`
(src/products/views.py line 230). -/
def conversionHasCommissionAttr (_c : Conversion) : Bool :=
  conversionAttributeNames.contains ("commission")

/-- `product.affiliate_links.all()` (the reverse foreign key). -/
def product_affiliate_links (st : Store) (p : Product) : List AffiliateLink :=
  st.links.filter (fun l => l.product == p.id)

/-- `link.conversions.all()` (the reverse foreign key). -/
def link_conversions (st : Store) (l : AffiliateLink) : List Conversion :=
  st.conversions.filter (fun c => c.affiliate_link == l.id)

/-- The guarded generator-sum feeding `total_commission_paid`
(src/products/views.py lines 226-232): over every conversion of every
link of the product, `conversion.commission.amount` is summed for the
conversions that have a `commission` attribute.  The summand refers to
an attribute no `Conversion` has, so it is kept abstract as
`commissionValue`; the guard decides whether it is ever evaluated. -/
def analytics_total_commission_paid (st : Store) (p : Product)
    (commissionValue : Conversion → Rat) : Rat :=
  ((product_affiliate_links st p).map (fun l =>
    (((link_conversions st l).filter (fun c => conversionHasCommissionAttr c)).map
      commissionValue).sum)).sum

/-- C9: `hasattr(conversion, 'commission')` is false for every
conversion — `Conversion` exposes `commission_amount` but no
`commission` — so the guarded sum is empty and `total_commission_paid`
is 0 for every product, every store, and whatever the inaccessible
summand would have evaluated to. -/
theorem C9_total_commission_paid_zero (st : Store) (p : Product)
    (commissionValue : Conversion → Rat) :
    (∀ c : Conversion, conversionHasCommissionAttr c = false) ∧
    analytics_total_commission_paid st p commissionValue = 0 := by
  have hattr : ∀ c : Conversion, conversionHasCommissionAttr c = false := by
    intro c
    unfold conversionHasCommissionAttr
    decide
  refine ⟨hattr, ?_⟩
  unfold analytics_total_commission_paid
  apply List.sum_eq_zero
  intro x hx
  rw [List.mem_map] at hx
  obtain ⟨l, _, hl⟩ := hx
  have hfilter :
      (link_conversions st l).filter (fun c => conversionHasCommissionAttr c) = [] := by
    apply List.filter_eq_nil_iff.mpr
    intro c _
    simp [hattr c]
  rw [hfilter] at hl
  simpa using hl.symm

/-! ## The conversions list (`ConversionViewSet.get_queryset`,
src/tracking/views.py lines 227-257). -/

/-- The optional query parameters of the conversions list. -/
structure ConversionQuery where
  affiliate_link : Option Nat
  verified : Option String
  start_date : Option Nat
  end_date : Option Nat
deriving Repr, DecidableEq

/-- A request with no query parameters. -/
def emptyConversionQuery : ConversionQuery :=
  { affiliate_link := none, verified := none, start_date := none, end_date := none }

/-- The link row a conversion's `affiliate_link` foreign key points at. -/
def link_of_conversion (st : Store) (c : Conversion) : Option AffiliateLink :=
  st.links.find? (fun l => l.id == c.affiliate_link)

/-- `conversion.affiliate_link.affiliate` as an id. -/
def conversion_affiliate (st : Store) (c : Conversion) : Option Nat :=
  (link_of_conversion st c).map (fun l => l.affiliate)

/-- `conversion.affiliate_link.product.merchant` as an id. -/
def conversion_merchant (st : Store) (c : Conversion) : Option Nat :=
  (link_of_conversion st c).bind (fun l =>
    (findProduct st l.product).map (fun p => p.merchant))

/-- `ConversionViewSet.get_queryset` (src/tracking/views.py lines
227-257): the affiliate role filter, else the merchant role filter,
else no role filter; then the optional `affiliate_link`, `verified` and
date-range parameter filters.  The final `order_by('-timestamp')` only
permutes rows and is not modelled; the verified parameter matches
Python's `verified.lower() == 'true'`. -/
def conversion_get_queryset (st : Store) (user : User) (q : ConversionQuery) :
    List Conversion :=
  let qs0 := st.conversions
  let qs1 :=
    if user.is_affiliate then
      qs0.filter (fun c => conversion_affiliate st c == some user.id)
    else if user.is_merchant then
      qs0.filter (fun c => conversion_merchant st c == some user.id)
    else qs0
  let qs2 := match q.affiliate_link with
    | some linkId => qs1.filter (fun c => c.affiliate_link == linkId)
    | none => qs1
  let qs3 := match q.verified with
    | some v => qs2.filter (fun c => c.verified == (pyLower v == "true"))
    | none => qs2
  let qs4 := match q.start_date with
    | some d => qs3.filter (fun c => d ≤ c.timestamp)
    | none => qs3
  match q.end_date with
  | some d => qs4.filter (fun c => c.timestamp ≤ d)
  | none => qs4

/-- C10: a user whose role string is neither "affiliate" nor "merchant"
has both role predicates false, so the parameterless conversions list
applies no role filter and returns every stored conversion. -/
theorem C10_third_role_sees_all (st : Store) (user : User)
    (h1 : user.role ≠ "affiliate") (h2 : user.role ≠ "merchant") :
    user.is_affiliate = false ∧ user.is_merchant = false ∧
    conversion_get_queryset st user emptyConversionQuery = st.conversions := by
  have ha : user.is_affiliate = false := by
    simp [User.is_affiliate, h1]
  have hm : user.is_merchant = false := by
    simp [User.is_merchant, h2]
  exact ⟨ha, hm, by simp [conversion_get_queryset, emptyConversionQuery, ha, hm]⟩

/-- An administrator account: role "admin", not affiliate, not
merchant. -/
def sampleAdmin : User :=
  { id := 99, username := "admin1", role := "admin", is_superuser := true }

/-- A store holding one conversion owned by affiliate 3 and merchant 2
— neither of them `sampleAdmin`. -/
def conversionStore : Store :=
  { sampleStore with
    conversions := [mkConversion sampleLink sampleProduct 50 ("ord-1") ("") 9 200] }

/-- Witness for C10: the "admin" role sees the full conversion list of
`conversionStore`. -/
theorem C10_third_role_sees_all_witness :
    conversion_get_queryset conversionStore sampleAdmin emptyConversionQuery =
      conversionStore.conversions :=
  (C10_third_role_sees_all conversionStore sampleAdmin
    (by decide) (by decide)).2.2
